import Mathlib

set_option maxRecDepth 40000

/-!
Verification of the composite-scoring and caching pipeline of
`src/data/essay-quality-ranker.py` (essay quality ranker).

Modelling conventions:
* Python floats are modelled as exact rationals `ℚ`; all arithmetic in the
  script stays well inside the range where IEEE doubles are exact for the
  claims at issue.
* External capabilities (LanguageTool, textstat, the OpenAI chat call) are
  abstracted by their outcomes, passed as explicit arguments: a match count,
  an optional pair of readability metrics (`none` = the computation raised),
  and an `Except String String` for the chat call (`.error` = the call
  raised, `.ok` = the stripped message content).
* The on-disk score cache is modelled as a map `String → Option ScoreRecord`
  keyed by filename stem; the JSON round-trip through the cache file is
  modelled as the identity on records.
* `json.loads` is modelled by an executable decoder over character lists.
  Numbers are kept in exact decimal form `mant * 10 ^ sexp` so that
  Python's `int()` truncation is integer arithmetic.  Nested objects and
  arrays occurring as field values are kept as raw balanced character spans
  (the script only ever reads the scalar fields `edit_effort` and `notes`;
  a raw span used as either produces the same fail-soft outcome as in
  Python).  Exception message texts are model-level stand-ins for the
  CPython messages.
-/

/-- Characters Python `str.strip` / `str.split` treat as whitespace (ASCII part). -/
def isPyWs (c : Char) : Bool :=
  c = ' ' || c = '\t' || c = '\n' || c = '\r' || c = '\x0b' || c = '\x0c'

/-- Python `s.strip()` on a list of characters. -/
def pyStrip (cs : List Char) : List Char :=
  ((cs.dropWhile isPyWs).reverse.dropWhile isPyWs).reverse

/-- Python `len(text.split())`: the number of maximal whitespace-free runs
(source line 70: `words = max(len(text.split()), 1)` uses this count). -/
def wordCount (s : String) : ℕ :=
  (s.toList.foldl (fun (acc : ℕ × Bool) c =>
    if isPyWs c then (acc.1, false)
    else if acc.2 then acc else (acc.1 + 1, true)) (0, false)).1

/-- JSON values as returned by Python `json.loads`, shallowly embedded.
A number keeps its exact decimal form: its value is `mant * 10 ^ sexp`.
Nested objects/arrays appearing as field values are kept as raw balanced
character spans (constructor `raw`); see the header comment. -/
inductive Json where
  | num (mant : ℤ) (sexp : ℤ)
  | str (s : String)
  | bool (b : Bool)
  | null
  | raw (span : List Char)
  | obj (fields : List (String × Json))

/-- Whitespace skipped by Python's JSON decoder (`' \t\n\r'`). -/
def isJsonWs (c : Char) : Bool :=
  c = ' ' || c = '\t' || c = '\n' || c = '\r'

/-- Drop leading JSON whitespace. -/
def skipWs (cs : List Char) : List Char := cs.dropWhile isJsonWs

/-- Value of a hexadecimal digit. -/
def hexVal (c : Char) : Option ℕ :=
  if '0' ≤ c ∧ c ≤ '9' then some (c.toNat - 48)
  else if 'a' ≤ c ∧ c ≤ 'f' then some (c.toNat - 87)
  else if 'A' ≤ c ∧ c ≤ 'F' then some (c.toNat - 55)
  else none

/-- Decode the body of a JSON string literal (after the opening quote), with the
standard escapes; returns the decoded characters and the rest of the input
after the closing quote.  Fuel-indexed so that it is structurally recursive. -/
def parseStringBody : ℕ → List Char → Option (List Char × List Char)
  | 0, _ => none
  | _ + 1, [] => none
  | fuel + 1, c :: rest =>
    if c = '"' then some ([], rest)
    else if c = '\\' then
      match rest with
      | [] => none
      | e :: rest2 =>
        let dec : Option (Char × List Char) :=
          if e = '"' then some ('"', rest2)
          else if e = '\\' then some ('\\', rest2)
          else if e = '/' then some ('/', rest2)
          else if e = 'b' then some ('\x08', rest2)
          else if e = 'f' then some ('\x0c', rest2)
          else if e = 'n' then some ('\n', rest2)
          else if e = 'r' then some ('\r', rest2)
          else if e = 't' then some ('\t', rest2)
          else if e = 'u' then
            match rest2 with
            | h1 :: h2 :: h3 :: h4 :: rest3 =>
              match hexVal h1, hexVal h2, hexVal h3, hexVal h4 with
              | some a, some b, some c2, some d =>
                some (Char.ofNat (((a * 16 + b) * 16 + c2) * 16 + d), rest3)
              | _, _, _, _ => none
            | _ => none
          else none
        match dec with
        | none => none
        | some (ch, r) => (parseStringBody fuel r).map (fun p => (ch :: p.1, p.2))
    else if c.toNat < 32 then none
    else (parseStringBody fuel rest).map (fun p => (c :: p.1, p.2))

/-- Numeric value of a list of decimal digits. -/
def digitsToNat (ds : List Char) : ℕ :=
  ds.foldl (fun n c => n * 10 + (c.toNat - 48)) 0

/-- Parse a JSON number token (grammar `-?(0|[1-9]\d*)(\.\d+)?([eE][+-]?\d+)?`),
returning its exact decimal form `(mant, sexp)` with value `mant * 10 ^ sexp`. -/
def parseNum (cs : List Char) : Option ((ℤ × ℤ) × List Char) :=
  let sgn := match cs with
    | '-' :: rest => (true, rest)
    | _ => (false, cs)
  let neg := sgn.1
  let cs1 := sgn.2
  let intDigits := cs1.takeWhile Char.isDigit
  let cs2 := cs1.dropWhile Char.isDigit
  if intDigits.isEmpty then none
  else if 1 < intDigits.length ∧ intDigits.head? = some '0' then none
  else
    let fres := match cs2 with
      | '.' :: rest => (rest.takeWhile Char.isDigit, rest.dropWhile Char.isDigit, true)
      | _ => ([], cs2, false)
    let fracDigits := fres.1
    let cs3 := fres.2.1
    if fres.2.2 ∧ fracDigits.isEmpty then none
    else
      let expPart : Option (ℤ × List Char) := match cs3 with
        | e :: rest =>
          if e = 'e' ∨ e = 'E' then
            let esgn := match rest with
              | '+' :: r => (false, r)
              | '-' :: r => (true, r)
              | _ => (false, rest)
            let eDigits := esgn.2.takeWhile Char.isDigit
            if eDigits.isEmpty then none
            else
              some ((if esgn.1 then -(digitsToNat eDigits : ℤ) else (digitsToNat eDigits : ℤ)),
                esgn.2.dropWhile Char.isDigit)
          else some (0, cs3)
        | [] => some (0, cs3)
      match expPart with
      | none => none
      | some (ex, rest) =>
        let mant : ℤ := (digitsToNat intDigits : ℤ) * 10 ^ fracDigits.length
          + (digitsToNat fracDigits : ℤ)
        some (((if neg then -mant else mant), ex - fracDigits.length), rest)

/-- Scan a balanced `\x7b...\x7d` / `[...]` span starting at the opening bracket,
skipping over JSON string literals; returns the span (brackets included) and
the rest.  Arguments: fuel, current nesting depth, inside-string flag,
just-after-backslash flag, input. -/
def scanBalanced : ℕ → ℕ → Bool → Bool → List Char → Option (List Char × List Char)
  | 0, _, _, _, _ => none
  | _ + 1, _, _, _, [] => none
  | fuel + 1, depth, inStr, esc, c :: rest =>
    if inStr then
      if esc then (scanBalanced fuel depth true false rest).map (fun p => (c :: p.1, p.2))
      else if c = '\\' then (scanBalanced fuel depth true true rest).map (fun p => (c :: p.1, p.2))
      else if c = '"' then (scanBalanced fuel depth false false rest).map (fun p => (c :: p.1, p.2))
      else (scanBalanced fuel depth true false rest).map (fun p => (c :: p.1, p.2))
    else if c = '"' then (scanBalanced fuel depth true false rest).map (fun p => (c :: p.1, p.2))
    else if c = '\x7b' ∨ c = '[' then
      (scanBalanced fuel (depth + 1) false false rest).map (fun p => (c :: p.1, p.2))
    else if c = '\x7d' ∨ c = ']' then
      if depth ≤ 1 then some ([c], rest)
      else (scanBalanced fuel (depth - 1) false false rest).map (fun p => (c :: p.1, p.2))
    else (scanBalanced fuel depth false false rest).map (fun p => (c :: p.1, p.2))

/-- Parse one non-object JSON value (string, number, literal) or a raw balanced
span for a nested object/array. -/
def parseScalar (fuel : ℕ) (cs : List Char) : Option (Json × List Char) :=
  match cs with
  | [] => none
  | c :: rest =>
    if c = '"' then (parseStringBody fuel rest).map (fun p => (Json.str (String.mk p.1), p.2))
    else if c = '\x7b' ∨ c = '[' then
      (scanBalanced fuel 0 false false cs).map (fun p => (Json.raw p.1, p.2))
    else if List.isPrefixOf "true".toList cs then some (Json.bool true, cs.drop 4)
    else if List.isPrefixOf "false".toList cs then some (Json.bool false, cs.drop 5)
    else if List.isPrefixOf "null".toList cs then some (Json.null, cs.drop 4)
    else (parseNum cs).map (fun p => (Json.num p.1.1 p.1.2, p.2))

/-- Parse the members of a JSON object after its opening brace (at least one
member expected; the empty object is handled by the caller).  Consumes the
closing brace. -/
def parseMembers : ℕ → List Char → Option (List (String × Json) × List Char)
  | 0, _ => none
  | fuel + 1, cs =>
    match skipWs cs with
    | '"' :: rest =>
      match parseStringBody fuel rest with
      | none => none
      | some (key, r1) =>
        match skipWs r1 with
        | ':' :: r3 =>
          match parseScalar fuel (skipWs r3) with
          | none => none
          | some (v, r4) =>
            match skipWs r4 with
            | ',' :: r6 =>
              (parseMembers fuel r6).map (fun p => ((String.mk key, v) :: p.1, p.2))
            | '\x7d' :: r6 => some ([(String.mk key, v)], r6)
            | _ => none
        | _ => none
    | _ => none

/-- Parse a top-level JSON value. -/
def parseTopVal (fuel : ℕ) (cs : List Char) : Option (Json × List Char) :=
  match skipWs cs with
  | '\x7b' :: rest =>
    match skipWs rest with
    | '\x7d' :: r => some (Json.obj [], r)
    | _ => (parseMembers fuel rest).map (fun p => (Json.obj p.1, p.2))
  | other => parseScalar fuel other

/-- Model of Python `json.loads` on a character list: parse one value and
require only trailing whitespace after it (`none` models `JSONDecodeError`). -/
def jsonLoads (cs : List Char) : Option Json :=
  match parseTopVal (cs.length + 2) cs with
  | none => none
  | some (v, rest) => if (skipWs rest).isEmpty then some v else none

/-- Python `dict.get k` for an object produced by the JSON decoder: later
duplicate keys overwrite earlier ones, so the last binding wins. -/
def getField (fields : List (String × Json)) (k : String) : Option Json :=
  fields.foldl (fun acc f => if f.1 = k then some f.2 else acc) none

/-- Python `int(s)` on a string: optional surrounding whitespace, optional
sign, decimal digits; anything else raises (`none`). -/
def pyIntOfString (s : String) : Option ℤ :=
  let cs := pyStrip s.toList
  let sgn := match cs with
    | '-' :: rest => (true, rest)
    | '+' :: rest => (false, rest)
    | _ => (false, cs)
  if sgn.2.isEmpty ∨ ¬ (sgn.2.all Char.isDigit) then none
  else some (if sgn.1 then -(digitsToNat sgn.2 : ℤ) else (digitsToNat sgn.2 : ℤ))

/-- Python `int(x)` on a decoded JSON value: numbers are truncated toward zero
(`Int.tdiv`), numeric strings are parsed, booleans are 0/1, and everything
else raises (`none`). -/
def pyInt : Json → Option ℤ
  | .num mant sexp =>
    some (if 0 ≤ sexp then mant * 10 ^ sexp.toNat else mant.tdiv (10 ^ (-sexp).toNat))
  | .str s => pyIntOfString s
  | .bool b => some (if b then 1 else 0)
  | _ => none

/-- Source lines 135-149: clean the (already stripped) model response — drop a
leading markdown fence marker and a trailing one, strip again, and if braces
are present cut out the substring from the first opening brace to the last
closing brace. -/
def extractCandidate (raw : String) : List Char :=
  let c0 := pyStrip raw.toList
  let c1 := if List.isPrefixOf "```json".toList c0 then c0.drop 7 else c0
  let c2 := if List.isSuffixOf "```".toList c1 then c1.take (c1.length - 3) else c1
  let c3 := pyStrip c2
  if c3.contains '\x7b' && c3.contains '\x7d' then
    let start := c3.findIdx (fun c => c == '\x7b')
    let stop := c3.length - 1 - c3.reverse.findIdx (fun c => c == '\x7d')
    (c3.drop start).take (stop + 1 - start)
  else c3

/-- Source lines 135-162: decode the cleaned response, read `edit_effort`
(default 50, converted by `int()`, clamped to [0,100]) and `notes` (default
empty, stripped, replaced by a fixed placeholder when empty).  An `.error`
models an exception raised anywhere in this part of the `try` block. -/
def llmParse (raw : String) : Except String (ℤ × String) :=
  match jsonLoads (extractCandidate raw) with
  | none => .error "Expecting value: line 1 column 1 (char 0)"
  | some (Json.obj fields) =>
    match (match getField fields "edit_effort" with
           | none => some (50 : ℤ)
           | some v => pyInt v) with
    | none => .error "invalid literal for int with base 10"
    | some e =>
      let edit_effort := max 0 (min 100 e)
      match (match getField fields "notes" with
             | none => some ""
             | some (Json.str s) => some (String.mk (pyStrip s.toList))
             | some _ => none) with
      | none => .error "object has no attribute strip"
      | some ns =>
        .ok (edit_effort, if ns = "" then "No specific issues noted" else ns)
  | some _ => .error "object has no attribute get"

/-- The whole `try` block of `llm_edit_score` (source lines 110-162): a failed
chat call short-circuits with its exception message, otherwise the stripped
response content is parsed. -/
def llmAttempt (response : Except String String) : Except String (ℤ × String) :=
  match response with
  | .error msg => .error msg
  | .ok raw => llmParse raw

/-- Source lines 98-167, `llm_edit_score`: the external chat-completion call is
abstracted by its outcome `response`.  Any exception in the pipeline is
absorbed (lines 164-167) into effort 50 and a note carrying the exception
message truncated to 50 characters; the function is total, i.e. never raises. -/
def llm_edit_score (response : Except String String) : ℤ × String :=
  match llmAttempt response with
  | .ok v => v
  | .error msg => (50, "LLM parse error: " ++ msg.take 50)

/-- Source lines 67-73, `grammar_error_score`: `matchCount` abstracts
`len(tool.check(text))`; the density `matchCount / max(len(text.split()), 1) * 1000`
is scaled by 10 and clamped to [0,100]. -/
def grammar_error_score (matchCount : ℕ) (text : String) : ℚ :=
  max (min ((matchCount : ℚ) / (max (wordCount text) 1 : ℕ) * 1000 * 10) 100) 0

/-- The raw error density of lines 70-71: errors per 1000 words. -/
def error_density (matchCount : ℕ) (text : String) : ℚ :=
  (matchCount : ℚ) / (max (wordCount text) 1 : ℕ) * 1000

/-- Lines 72-73 as a function of the density alone: scale by 10 and clamp. -/
def density_to_score (d : ℚ) : ℚ :=
  max (min (d * 10) 100) 0

/-- Source lines 75-96, `readability_score`: the textstat metrics are
abstracted by `metrics = some (fk_grade, flesch_score)`; `none` models an
exception inside the `try` block, answered by the neutral default 50.0. -/
def readability_score : Option (ℚ × ℚ) → ℚ
  | some (fk_grade, flesch_score) =>
    max (min ((max (fk_grade - 8) 0 * 10) * 0.6 + (max 0 (min 100 (100 - flesch_score))) * 0.4) 100) 0
  | none => 50

/-- Source lines 173-175, `composite_score`: raw weighted sum, no clamping. -/
def composite_score (llm grammar readability : ℚ) (w : ℚ × ℚ × ℚ) : ℚ :=
  match w with
  | (a, b, c) => a * llm + b * grammar + c * readability

/-- The record written to / read from the score cache (source lines 188-196). -/
structure ScoreRecord where
  file : String
  llm_score : ℤ
  grammar_score : ℚ
  readability_score : ℚ
  composite_score : ℚ
  notes : String
deriving DecidableEq

/-- The per-document outcomes of the three external capabilities consumed on a
cache miss. -/
structure DocEnv where
  judgeResponse : Except String String
  grammarMatches : ℕ
  readMetrics : Option (ℚ × ℚ)

/-- Source lines 177-197, `process_file`.  The cache directory is modelled as a
map from filename stem to stored record (`stem` abstracts `path.stem`, `path`
the full path string); writing the result file is modelled as updating that
map, and the JSON round-trip through the cache file as the identity.  On a
hit the stored record is returned verbatim and nothing is recomputed. -/
def process_file (cache : String → Option ScoreRecord) (stem path text : String)
    (env : DocEnv) (weights : ℚ × ℚ × ℚ) :
    ScoreRecord × (String → Option ScoreRecord) :=
  match cache stem with
  | some record => (record, cache)
  | none =>
    let ln := llm_edit_score env.judgeResponse
    let grammar := grammar_error_score env.grammarMatches text
    let read := readability_score env.readMetrics
    let comp := composite_score (ln.1 : ℚ) grammar read weights
    let result : ScoreRecord := ⟨path, ln.1, grammar, read, comp, ln.2⟩
    (result, fun k => if k = stem then some result else cache k)

/-- The comparison under `results.sort(key=lambda r: r["composite_score"],
reverse=True)` (source line 242): `a` may come before `b` iff `a`'s composite
is at least `b`'s. -/
def rankLE (a b : ScoreRecord) : Prop :=
  b.composite_score ≤ a.composite_score

instance : DecidableRel rankLE :=
  fun _ _ => inferInstanceAs (Decidable (_ ≤ _))

instance : IsTotal ScoreRecord rankLE :=
  ⟨fun a b => le_total b.composite_score a.composite_score⟩

instance : IsTrans ScoreRecord rankLE :=
  ⟨fun _ _ _ h1 h2 => le_trans h2 h1⟩

/-- Source line 242: Python's `list.sort` with `reverse=True` is a stable
descending sort; a stable sort for a total preorder is extensionally unique,
so it is embedded as insertion sort under `rankLE`. -/
def rank_results (rs : List ScoreRecord) : List ScoreRecord :=
  List.insertionSort rankLE rs

/-! ## Helper lemmas -/

/-- On a cache miss, `process_file` returns the freshly assembled record. -/
theorem process_file_miss_fst (cache : String → Option ScoreRecord) (stem path text : String)
    (env : DocEnv) (w : ℚ × ℚ × ℚ) (hmiss : cache stem = none) :
    (process_file cache stem path text env w).1 =
      ⟨path, (llm_edit_score env.judgeResponse).1,
       grammar_error_score env.grammarMatches text,
       readability_score env.readMetrics,
       composite_score ((llm_edit_score env.judgeResponse).1 : ℚ)
         (grammar_error_score env.grammarMatches text)
         (readability_score env.readMetrics) w,
       (llm_edit_score env.judgeResponse).2⟩ := by
  unfold process_file
  rw [hmiss]

/-- Any successful run of the judgment-parsing pipeline yields a clamped effort. -/
theorem llmParse_ok_bounds (raw : String) (p : ℤ × String) (h : llmParse raw = .ok p) :
    0 ≤ p.1 ∧ p.1 ≤ 100 := by
  unfold llmParse at h
  split at h
  · exact Except.noConfusion h
  · split at h
    · exact Except.noConfusion h
    · split at h
      · exact Except.noConfusion h
      · cases h
        exact ⟨le_max_left 0 _, max_le (by norm_num) (min_le_left _ _)⟩
  · exact Except.noConfusion h

/-- The judgment score returned by `llm_edit_score` always lies in [0, 100]. -/
theorem llm_edit_score_bounds (response : Except String String) :
    0 ≤ (llm_edit_score response).1 ∧ (llm_edit_score response).1 ≤ 100 := by
  unfold llm_edit_score
  cases hA : llmAttempt response with
  | error m => exact ⟨by norm_num, by norm_num⟩
  | ok p =>
    cases response with
    | error m => exact absurd hA (by simp [llmAttempt])
    | ok raw =>
      have hp : llmParse raw = .ok p := by simpa [llmAttempt] using hA
      simpa using llmParse_ok_bounds raw p hp

/-- The grammar score always lies in [0, 100]. -/
theorem grammar_error_score_bounds (matchCount : ℕ) (text : String) :
    0 ≤ grammar_error_score matchCount text ∧ grammar_error_score matchCount text ≤ 100 :=
  ⟨le_max_right _ _, max_le (min_le_right _ _) (by norm_num)⟩

/-- The readability score always lies in [0, 100]. -/
theorem readability_score_bounds (metrics : Option (ℚ × ℚ)) :
    0 ≤ readability_score metrics ∧ readability_score metrics ≤ 100 := by
  match metrics with
  | none => exact ⟨by norm_num [readability_score], by norm_num [readability_score]⟩
  | some (g, e) =>
    exact ⟨le_max_right _ _, max_le (min_le_right _ _) (by norm_num)⟩

/-- Stability of the ranking: the records sharing any given composite score come
out of `rank_results` in their input order. -/
theorem rank_results_filter_stable (rs : List ScoreRecord) (q : ℚ) :
    (rank_results rs).filter (fun r => decide (r.composite_score = q))
      = rs.filter (fun r => decide (r.composite_score = q)) := by
  have hpair : (rs.filter (fun r => decide (r.composite_score = q))).Pairwise rankLE := by
    refine List.pairwise_of_forall_mem_list ?_
    intro a ha b hb
    have ha2 : a.composite_score = q := of_decide_eq_true (List.mem_filter.mp ha).2
    have hb2 : b.composite_score = q := of_decide_eq_true (List.mem_filter.mp hb).2
    unfold rankLE
    rw [ha2, hb2]
  have hsub : List.Sublist (rs.filter (fun r => decide (r.composite_score = q))) (rank_results rs) :=
    List.sublist_insertionSort hpair (List.filter_sublist rs)
  have hidem : (rs.filter (fun r => decide (r.composite_score = q))).filter
      (fun r => decide (r.composite_score = q)) = rs.filter (fun r => decide (r.composite_score = q)) :=
    List.filter_eq_self.mpr (fun a ha => (List.mem_filter.mp ha).2)
  have hsub2 : List.Sublist (rs.filter (fun r => decide (r.composite_score = q)))
      ((rank_results rs).filter (fun r => decide (r.composite_score = q))) := by
    have := hsub.filter (fun r => decide (r.composite_score = q))
    rwa [hidem] at this
  have hperm : ((rank_results rs).filter (fun r => decide (r.composite_score = q))).Perm
      (rs.filter (fun r => decide (r.composite_score = q))) :=
    (List.perm_insertionSort rankLE rs).filter _
  exact (hsub2.eq_of_length hperm.length_eq.symm).symm

/-! ## Claim theorems -/

/-- C1 fails as stated: with sub-scores (80, 20, 10) and weights (0.6, 0.2, 0.2)
the composite is 54.0 (= 0.6·80 + 0.2·20 + 0.2·10), not the 52.0 the spec's
scenario announces. -/
theorem end_to_end_first_composite_not_52 :
    composite_score 80 20 10 (0.6, 0.2, 0.2) = 54 ∧
    ¬ composite_score 80 20 10 (0.6, 0.2, 0.2) = 52 := by
  constructor
  · norm_num [composite_score]
  · norm_num [composite_score]

/-- C1 (amended): the three documents with sub-scores (80,20,10), (40,50,60),
(10,5,5) and weights (0.6,0.2,0.2) get composites 54.0, 46.0 and 8.0, and the
resulting ranking orders them doc1, doc2, doc3. -/
theorem end_to_end_composites_and_ranking :
    composite_score 80 20 10 (0.6, 0.2, 0.2) = 54 ∧
    composite_score 40 50 60 (0.6, 0.2, 0.2) = 46 ∧
    composite_score 10 5 5 (0.6, 0.2, 0.2) = 8 ∧
    rank_results
      [⟨"doc1", 80, 20, 10, composite_score 80 20 10 (0.6, 0.2, 0.2), ""⟩,
       ⟨"doc2", 40, 50, 60, composite_score 40 50 60 (0.6, 0.2, 0.2), ""⟩,
       ⟨"doc3", 10, 5, 5, composite_score 10 5 5 (0.6, 0.2, 0.2), ""⟩]
      = [⟨"doc1", 80, 20, 10, 54, ""⟩, ⟨"doc2", 40, 50, 60, 46, ""⟩,
         ⟨"doc3", 10, 5, 5, 8, ""⟩] := by
  have h1 : composite_score 80 20 10 (0.6, 0.2, 0.2) = 54 := by norm_num [composite_score]
  have h2 : composite_score 40 50 60 (0.6, 0.2, 0.2) = 46 := by norm_num [composite_score]
  have h3 : composite_score 10 5 5 (0.6, 0.2, 0.2) = 8 := by norm_num [composite_score]
  refine ⟨h1, h2, h3, ?_⟩
  rw [h1, h2, h3]
  decide

/-- C2 fails as stated: non-negative weights alone do not keep the composite in
[0, 100].  With weights (3, 0, 0) and a cache miss on a document whose
judgment call raised (effort defaults to 50), the stored compositeScore is
150. -/
theorem process_file_range_counterexample :
    ((0:ℚ) ≤ 3 ∧ (0:ℚ) ≤ 0 ∧ (0:ℚ) ≤ 0) ∧
    (fun _ => (none : Option ScoreRecord) : String → Option ScoreRecord) "doc" = none ∧
    ((process_file (fun _ => none) "doc" "doc.md" "word"
        ⟨.error "boom", 0, none⟩ (3, 0, 0)).1).composite_score = 150 ∧
    ¬ ((process_file (fun _ => none) "doc" "doc.md" "word"
        ⟨.error "boom", 0, none⟩ (3, 0, 0)).1).composite_score ≤ 100 := by
  have hllm : llm_edit_score (Except.error "boom" : Except String String)
      = (50, "LLM parse error: boom") := by decide
  have hval : ((process_file (fun _ => none) "doc" "doc.md" "word"
      ⟨.error "boom", 0, none⟩ (3, 0, 0)).1).composite_score = 150 := by
    rw [process_file_miss_fst (fun _ => none) "doc" "doc.md" "word"
      ⟨.error "boom", 0, none⟩ (3, 0, 0) rfl]
    show composite_score ((llm_edit_score (Except.error "boom")).1 : ℚ)
      (grammar_error_score 0 "word") (readability_score none) (3, 0, 0) = 150
    rw [hllm]
    simp only [composite_score]
    push_cast
    ring_nf
  exact ⟨⟨by norm_num, le_refl 0, le_refl 0⟩, rfl, hval, by rw [hval]; norm_num⟩

/-- C2 (amended): on a cache miss with non-negative weights that sum to at most
1, every numeric field of the produced record — judgment, grammar,
readability and composite score — lies in [0, 100].  (With the weights only
non-negative, the three sub-scores still lie in [0, 100] but the composite
need not, see the counterexample.) -/
theorem process_file_record_in_range (cache : String → Option ScoreRecord)
    (stem path text : String) (env : DocEnv) (w1 w2 w3 : ℚ)
    (hw1 : 0 ≤ w1) (hw2 : 0 ≤ w2) (hw3 : 0 ≤ w3) (hsum : w1 + w2 + w3 ≤ 1)
    (hmiss : cache stem = none) :
    (0 ≤ ((process_file cache stem path text env (w1, w2, w3)).1).llm_score ∧
      ((process_file cache stem path text env (w1, w2, w3)).1).llm_score ≤ 100) ∧
    (0 ≤ ((process_file cache stem path text env (w1, w2, w3)).1).grammar_score ∧
      ((process_file cache stem path text env (w1, w2, w3)).1).grammar_score ≤ 100) ∧
    (0 ≤ ((process_file cache stem path text env (w1, w2, w3)).1).readability_score ∧
      ((process_file cache stem path text env (w1, w2, w3)).1).readability_score ≤ 100) ∧
    (0 ≤ ((process_file cache stem path text env (w1, w2, w3)).1).composite_score ∧
      ((process_file cache stem path text env (w1, w2, w3)).1).composite_score ≤ 100) := by
  rw [process_file_miss_fst cache stem path text env (w1, w2, w3) hmiss]
  obtain ⟨hL0, hL1⟩ := llm_edit_score_bounds env.judgeResponse
  obtain ⟨hG0, hG1⟩ := grammar_error_score_bounds env.grammarMatches text
  obtain ⟨hR0, hR1⟩ := readability_score_bounds env.readMetrics
  refine ⟨⟨hL0, hL1⟩, ⟨hG0, hG1⟩, ⟨hR0, hR1⟩, ?_, ?_⟩
  · show 0 ≤ composite_score ((llm_edit_score env.judgeResponse).1 : ℚ)
      (grammar_error_score env.grammarMatches text) (readability_score env.readMetrics) (w1, w2, w3)
    simp only [composite_score]
    have hL0q : (0:ℚ) ≤ ((llm_edit_score env.judgeResponse).1 : ℚ) := by exact_mod_cast hL0
    exact add_nonneg (add_nonneg (mul_nonneg hw1 hL0q) (mul_nonneg hw2 hG0)) (mul_nonneg hw3 hR0)
  · show composite_score ((llm_edit_score env.judgeResponse).1 : ℚ)
      (grammar_error_score env.grammarMatches text) (readability_score env.readMetrics)
      (w1, w2, w3) ≤ 100
    simp only [composite_score]
    have hL1q : ((llm_edit_score env.judgeResponse).1 : ℚ) ≤ 100 := by exact_mod_cast hL1
    have e1 : w1 * ((llm_edit_score env.judgeResponse).1 : ℚ) ≤ w1 * 100 :=
      mul_le_mul_of_nonneg_left hL1q hw1
    have e2 : w2 * grammar_error_score env.grammarMatches text ≤ w2 * 100 :=
      mul_le_mul_of_nonneg_left hG1 hw2
    have e3 : w3 * readability_score env.readMetrics ≤ w3 * 100 :=
      mul_le_mul_of_nonneg_left hR1 hw3
    linarith

/-- Witness for C2 at the default weights (0.6, 0.2, 0.2), an empty cache and a
failed judgment call. -/
theorem process_file_record_in_range_witness :
    ((0:ℚ) ≤ 0.6 ∧ (0:ℚ) ≤ 0.2 ∧ (0.6:ℚ) + 0.2 + 0.2 ≤ 1 ∧
      (fun _ => (none : Option ScoreRecord) : String → Option ScoreRecord) "d" = none) ∧
    (0 ≤ ((process_file (fun _ => none) "d" "d.md" "w"
        ⟨.error "e", 0, none⟩ (0.6, 0.2, 0.2)).1).composite_score ∧
      ((process_file (fun _ => none) "d" "d.md" "w"
        ⟨.error "e", 0, none⟩ (0.6, 0.2, 0.2)).1).composite_score ≤ 100) :=
  ⟨⟨by norm_num, by norm_num, by norm_num, rfl⟩,
   (process_file_record_in_range (fun _ => none) "d" "d.md" "w" ⟨.error "e", 0, none⟩
     0.6 0.2 0.2 (by norm_num) (by norm_num) (by norm_num) (by norm_num) rfl).2.2.2⟩

/-- C3: for every weight vector and all sub-scores in [0, 100], the composite is
exactly the raw weighted sum w1·j + w2·g + w3·r, with no clamping. -/
theorem composite_score_is_weighted_sum (w1 w2 w3 j g r : ℚ)
    (hj0 : 0 ≤ j) (hj1 : j ≤ 100) (hg0 : 0 ≤ g) (hg1 : g ≤ 100)
    (hr0 : 0 ≤ r) (hr1 : r ≤ 100) :
    composite_score j g r (w1, w2, w3) = w1 * j + w2 * g + w3 * r := rfl

/-- Witness for C3 at weights (0.6, 0.2, 0.2) and sub-scores (80, 20, 10). -/
theorem composite_score_is_weighted_sum_witness :
    composite_score 80 20 10 (0.6, 0.2, 0.2) = 0.6 * 80 + 0.2 * 20 + 0.2 * 10 :=
  composite_score_is_weighted_sum 0.6 0.2 0.2 80 20 10 (by norm_num) (by norm_num)
    (by norm_num) (by norm_num) (by norm_num) (by norm_num)

/-- C4: the grammar score is the clamp to [0, 100] of ten times the error
density `matchCount / max(wordCount(text), 1) * 1000`; as a function of the
density it is monotonically non-decreasing, equals 100 for every density at
least 10, and equals 0 at density 0. -/
theorem grammar_error_score_density_properties :
    (∀ (matchCount : ℕ) (text : String),
        grammar_error_score matchCount text = density_to_score (error_density matchCount text)) ∧
    (∀ d₁ d₂ : ℚ, d₁ ≤ d₂ → density_to_score d₁ ≤ density_to_score d₂) ∧
    (∀ d : ℚ, 10 ≤ d → density_to_score d = 100) ∧
    density_to_score 0 = 0 := by
  refine ⟨fun matchCount text => rfl, fun d₁ d₂ h => ?_, fun d h => ?_, by norm_num [density_to_score]⟩
  · simp only [density_to_score]
    gcongr
  · simp only [density_to_score]
    rw [min_eq_right (by linarith : (100:ℚ) ≤ d * 10), max_eq_left (by norm_num : (0:ℚ) ≤ 100)]

/-- Witness for C4: monotonicity at densities 2 ≤ 5 and saturation at density 12. -/
theorem grammar_error_score_density_properties_witness :
    density_to_score 2 ≤ density_to_score 5 ∧ density_to_score 12 = 100 :=
  ⟨grammar_error_score_density_properties.2.1 2 5 (by norm_num),
   grammar_error_score_density_properties.2.2.1 12 (by norm_num)⟩

/-- C5: the readability score is always in [0, 100]; on successful metric
computation it is the clamp of 0.6·(max(g−8,0)·10) + 0.4·clamp(100−e, 0, 100),
and on a computation error it is exactly 50.0. -/
theorem readability_score_clamped_and_default :
    (∀ metrics : Option (ℚ × ℚ),
        0 ≤ readability_score metrics ∧ readability_score metrics ≤ 100) ∧
    (∀ g e : ℚ, readability_score (some (g, e)) =
        max (min (0.6 * (max (g - 8) 0 * 10) + 0.4 * (max 0 (min 100 (100 - e)))) 100) 0) ∧
    readability_score none = 50 := by
  refine ⟨readability_score_bounds, fun g e => ?_, rfl⟩
  simp only [readability_score]
  ring_nf

/-- C6: a well-formed judgment response yields the clamped effort and the notes;
extraction still succeeds with a markdown fence or surrounding prose; a
missing `edit_effort` defaults to 50 and missing or empty notes default to
the fixed placeholder. -/
theorem llm_edit_score_wellformed_extraction :
    llm_edit_score (.ok "\x7b\"edit_effort\": 65, \"notes\": \"x\"\x7d") = (65, "x") ∧
    llm_edit_score (.ok "```json\n\x7b\"edit_effort\": 65, \"notes\": \"x\"\x7d\n```") = (65, "x") ∧
    llm_edit_score
      (.ok "Sure! Here is the JSON you asked for: \x7b\"edit_effort\": 65, \"notes\": \"x\"\x7d Hope that helps.")
      = (65, "x") ∧
    llm_edit_score (.ok "\x7b\"edit_effort\": 250, \"notes\": \"x\"\x7d") = (100, "x") ∧
    llm_edit_score (.ok "\x7b\"notes\": \"x\"\x7d") = (50, "x") ∧
    llm_edit_score (.ok "\x7b\"edit_effort\": 65\x7d") = (65, "No specific issues noted") ∧
    llm_edit_score (.ok "\x7b\"edit_effort\": 65, \"notes\": \"\"\x7d")
      = (65, "No specific issues noted") := by
  refine ⟨by decide, by decide, by decide, by decide, by decide, by decide, by decide⟩

/-- C7: `llm_edit_score` is total (modelled as a function), and on any exception
in its pipeline — a failed call or any parsing failure — it returns effort 50
with the note "LLM parse error: " followed by the exception message truncated
to 50 characters. -/
theorem llm_edit_score_fail_soft :
    (∀ e : String, llmAttempt (Except.error e) = Except.error e) ∧
    (∀ (response : Except String String) (msg : String),
        llmAttempt response = Except.error msg →
        llm_edit_score response = (50, "LLM parse error: " ++ msg.take 50)) := by
  refine ⟨fun e => rfl, fun response msg h => ?_⟩
  unfold llm_edit_score
  rw [h]

/-- Witness for C7: a network-style failure and an unparseable response. -/
theorem llm_edit_score_fail_soft_witness :
    llm_edit_score (Except.error "network is unreachable")
      = (50, "LLM parse error: network is unreachable") ∧
    llm_edit_score (Except.ok "no json here")
      = (50, "LLM parse error: Expecting value: line 1 column 1 (char 0)") :=
  ⟨llm_edit_score_fail_soft.2 (Except.error "network is unreachable") "network is unreachable"
    (llm_edit_score_fail_soft.1 "network is unreachable"),
   llm_edit_score_fail_soft.2 (Except.ok "no json here")
    "Expecting value: line 1 column 1 (char 0)" rfl⟩

/-- C8: the final ranking is a stable descending sort by composite score: it is
a permutation of its input, pairwise sorted with greater-or-equal composites
first, records of equal composite retain their input order, and on composites
[30, 90, 90, 10] the two 90s come first in input order, then 30, then 10. -/
theorem ranking_stable_descending_sort :
    (∀ rs : List ScoreRecord, (rank_results rs).Perm rs) ∧
    (∀ rs : List ScoreRecord,
        (rank_results rs).Pairwise (fun a b => b.composite_score ≤ a.composite_score)) ∧
    (∀ (rs : List ScoreRecord) (q : ℚ),
        (rank_results rs).filter (fun r => decide (r.composite_score = q))
          = rs.filter (fun r => decide (r.composite_score = q))) ∧
    rank_results [⟨"d1", 0, 0, 0, 30, ""⟩, ⟨"d2", 0, 0, 0, 90, ""⟩,
        ⟨"d3", 0, 0, 0, 90, ""⟩, ⟨"d4", 0, 0, 0, 10, ""⟩]
      = [⟨"d2", 0, 0, 0, 90, ""⟩, ⟨"d3", 0, 0, 0, 90, ""⟩,
         ⟨"d1", 0, 0, 0, 30, ""⟩, ⟨"d4", 0, 0, 0, 10, ""⟩] := by
  refine ⟨fun rs => List.perm_insertionSort rankLE rs,
    fun rs => List.sorted_insertionSort rankLE rs,
    rank_results_filter_stable, by decide⟩

/-- C9: on a cache hit, `process_file` returns the stored record verbatim with
the cache unchanged, independently of the external capabilities and the
weights (none are invoked or reapplied); and after a miss stores its record,
so a second run on the same stem returns that identical record unchanged. -/
theorem process_file_cache_hit_frame :
    (∀ (cache : String → Option ScoreRecord) (stem path text : String)
        (env env' : DocEnv) (w w' : ℚ × ℚ × ℚ) (r : ScoreRecord),
        cache stem = some r →
        process_file cache stem path text env w = (r, cache) ∧
        process_file cache stem path text env w = process_file cache stem path text env' w') ∧
    (∀ (cache : String → Option ScoreRecord) (stem path text : String) (env : DocEnv)
        (w : ℚ × ℚ × ℚ) (path' text' : String) (env' : DocEnv) (w' : ℚ × ℚ × ℚ),
        cache stem = none →
        process_file ((process_file cache stem path text env w).2) stem path' text' env' w'
          = ((process_file cache stem path text env w).1,
             (process_file cache stem path text env w).2)) := by
  constructor
  · intro cache stem path text env env' w w' r h
    unfold process_file
    rw [h]
    exact ⟨rfl, rfl⟩
  · intro cache stem path text env w path' text' env' w' h
    unfold process_file
    rw [h]
    simp

/-- Witness for C9: a hit on a one-entry cache, and scoring the same stem twice
starting from an empty cache. -/
theorem process_file_cache_hit_frame_witness :
    (process_file (fun k => if k = "a" then some ⟨"a.md", 10, 1, 2, 3, "n"⟩ else none)
        "a" "a.md" "t" ⟨.error "x", 0, none⟩ (1, 1, 1)
      = (⟨"a.md", 10, 1, 2, 3, "n"⟩,
         fun k => if k = "a" then some ⟨"a.md", 10, 1, 2, 3, "n"⟩ else none)) ∧
    (process_file ((process_file (fun _ => none) "b" "b.md" "t"
          ⟨.error "x", 0, none⟩ (1, 1, 1)).2) "b" "c.md" "u" ⟨.error "y", 7, some (9, 9)⟩ (2, 2, 2)
      = ((process_file (fun _ => none) "b" "b.md" "t" ⟨.error "x", 0, none⟩ (1, 1, 1)).1,
         (process_file (fun _ => none) "b" "b.md" "t" ⟨.error "x", 0, none⟩ (1, 1, 1)).2)) :=
  ⟨(process_file_cache_hit_frame.1 _ "a" "a.md" "t" ⟨.error "x", 0, none⟩ ⟨.error "x", 0, none⟩
      (1, 1, 1) (1, 1, 1) ⟨"a.md", 10, 1, 2, 3, "n"⟩ rfl).1,
   process_file_cache_hit_frame.2 (fun _ => none) "b" "b.md" "t" ⟨.error "x", 0, none⟩ (1, 1, 1)
     "c.md" "u" ⟨.error "y", 7, some (9, 9)⟩ (2, 2, 2) rfl⟩

/-- C10: a numeric non-integer `edit_effort` is truncated toward zero by
`int()` before clamping (65.7 becomes 65, −65.7 would become −65), a numeric
string such as "65" is accepted as the integer 65, an integral JSON number is
returned unchanged, and the returned effort is an integer (the model's return
type is `ℤ × String`). -/
theorem llm_edit_score_int_truncation :
    llm_edit_score (.ok "\x7b\"edit_effort\": 65.7, \"notes\": \"x\"\x7d") = (65, "x") ∧
    llm_edit_score (.ok "\x7b\"edit_effort\": \"65\", \"notes\": \"x\"\x7d") = (65, "x") ∧
    pyInt (Json.num 657 (-1)) = some 65 ∧
    pyInt (Json.num (-657) (-1)) = some (-65) ∧
    pyInt (Json.str "65") = some 65 ∧
    (∀ m : ℤ, pyInt (Json.num m 0) = some m) := by
  refine ⟨by decide, by decide, by decide, by decide, by decide, fun m => ?_⟩
  simp [pyInt]
